import Mathlib

/-!
Shallow embedding of the virtual directory projection layer and transfer
helpers of the gcs_browser package (src/gcs_browser/core.py and
src/gcs_browser/utils.py), together with theorems settling the frozen
claims about that code.

Python strings are modelled as lists of characters; the mutable browser
object is modelled by explicit state passing; the storage backend
(gcsfs) is modelled as explicit function parameters returning
Except values, an exception being the error case.
-/

/-- Python str is modelled as a list of characters. -/
abbrev PyStr := List Char

/-- Models Python str.lower, character by character (ASCII). -/
def toLowerPy (s : PyStr) : PyStr := s.map Char.toLower

/-- Models Python s.lstrip("/"): drop leading slash characters. -/
def lstripSlash (s : PyStr) : PyStr := s.dropWhile (fun c => c == '/')

/-- Models Python s.rstrip("/"): drop trailing slash characters. -/
def rstripSlash (s : PyStr) : PyStr := ((s.reverse).dropWhile (fun c => c == '/')).reverse

/-- Models Python s.split("/"). -/
def splitOnSlash : PyStr → List PyStr
  | [] => [[]]
  | c :: rest =>
    match splitOnSlash rest with
    | [] => [[]]
    | r :: rs => if c == '/' then [] :: r :: rs else (c :: r) :: rs

/-- Fuelled worker for `replaceAll`; the fuel is the length of the string,
which bounds the number of steps a left-to-right scan can take. -/
def replaceAllAux (pat rep : PyStr) : Nat → PyStr → PyStr
  | _, [] => []
  | 0, s => s
  | fuel + 1, c :: rest =>
    if pat ≠ [] ∧ pat.isPrefixOf (c :: rest) = true then
      rep ++ replaceAllAux pat rep fuel (List.drop pat.length (c :: rest))
    else
      c :: replaceAllAux pat rep fuel rest

/-- Models Python s.replace(pat, rep): leftmost, non-overlapping
replacement of every occurrence of `pat` in `s` by `rep`. -/
def replaceAll (pat rep s : PyStr) : PyStr := replaceAllAux pat rep s.length s

/-- Boolean lexicographic less-or-equal on character lists by code point,
modelling Python string comparison. -/
def lexLE : PyStr → PyStr → Bool
  | [], _ => true
  | _ :: _, [] => false
  | a :: as, b :: bs => if a = b then lexLE as bs else decide (a < b)

/-- Models the Python value stored in the `modified` field: None, a
datetime (abstracted to an integer timestamp), or a raw string kept for
display. -/
inductive PyDate where
  | pnone
  | dt (t : Int)
  | raw (s : PyStr)
deriving DecidableEq

/-- Embeds GCSBrowser._safe_parse_date (core.py lines 88 to 120). The
`parser` parameter abstracts the date parsing attempt (dateutil.parser.parse
or the fromisoformat fallback); Option.none models the parse raising. A
falsy input (None or the empty string) yields None; a datetime is returned
unchanged; a string that fails to parse is returned as the raw string. -/
def safe_parse_date (parser : PyStr → Option Int) : PyDate → PyDate
  | PyDate.pnone => PyDate.pnone
  | PyDate.dt t => PyDate.dt t
  | PyDate.raw s =>
    if s = [] then PyDate.pnone
    else
      match parser s with
      | some t => PyDate.dt t
      | none => PyDate.raw s

/-- Constant string "folder". -/
def folderS : PyStr := "folder".toList

/-- Constant string "file". -/
def fileS : PyStr := "file".toList

/-- Constant string "directory". -/
def dirS : PyStr := "directory".toList

/-- Constant string "/". -/
def slashS : PyStr := "/".toList

/-- Embeds the GCSItem dataclass (core.py lines 32 to 54). -/
structure GCSItem where
  name : PyStr
  path : PyStr
  itype : PyStr
  size : Nat
  modified : PyDate
  etag : Option PyStr
deriving DecidableEq

/-- One raw record of the detailed gcsfs listing consumed by list_items:
the dictionary keys name, type, size, updated and etag, with the get
defaults of the source (size 0, updated None, etag None) already applied. -/
structure RawItem where
  name : PyStr
  rtype : PyStr
  size : Nat
  updated : PyDate
  etag : Option PyStr
deriving DecidableEq

/-- First component of the sort key of core.py line 235: the boolean
x.type != "folder", False for folders and True for files. -/
def fileFlag (x : GCSItem) : Bool := decide (x.itype ≠ folderS)

/-- Embeds the sort key comparison of core.py line 235:
key = (x.type != "folder", x.name.lower()), compared lexicographically
with False before True and Python string order on the lowered name. -/
def itemLE (x y : GCSItem) : Bool :=
  if fileFlag x = fileFlag y then lexLE (toLowerPy x.name) (toLowerPy y.name) else fileFlag y

/-- Propositional form of `itemLE`, used as the sorting relation. -/
def ItemOrd (x y : GCSItem) : Prop := itemLE x y = true

instance : DecidableRel ItemOrd := fun x y => inferInstanceAs (Decidable (itemLE x y = true))

/-- Embeds the per-record body of the listing loop of list_items
(core.py lines 184 to 232): `items` and `seen` thread the mutable list
`items` and the set `folders_seen` through the loop. -/
def processRaw (parser : PyStr → Option Int) (bucket pfx : PyStr) :
    List RawItem → List GCSItem → List PyStr → List GCSItem
  | [], items, _ => items
  | row :: rest, items, seen =>
    let item_path := row.name
    let rel0 := replaceAll (bucket ++ slashS) [] item_path
    if pfx ≠ [] ∧ pfx.isPrefixOf rel0 = false then
      processRaw parser bucket pfx rest items seen
    else
      let relative_path := if pfx ≠ [] then lstripSlash (rel0.drop pfx.length) else rel0
      if relative_path = [] then
        processRaw parser bucket pfx rest items seen
      else if row.rtype = dirS then
        let nm := (splitOnSlash (rstripSlash relative_path)).getLastD []
        if nm ∈ seen then processRaw parser bucket pfx rest items seen
        else
          processRaw parser bucket pfx rest
            (items ++ [{ name := nm, path := item_path, itype := folderS, size := 0,
                         modified := safe_parse_date parser row.updated, etag := none }])
            (nm :: seen)
      else if '/' ∈ relative_path then
        let folder_name := (splitOnSlash relative_path).headD []
        if folder_name ∈ seen then processRaw parser bucket pfx rest items seen
        else
          let folder_path :=
            replaceAll (slashS ++ slashS) slashS (bucket ++ slashS ++ pfx ++ slashS ++ folder_name)
          processRaw parser bucket pfx rest
            (items ++ [{ name := folder_name, path := folder_path, itype := folderS, size := 0,
                         modified := PyDate.pnone, etag := none }])
            (folder_name :: seen)
      else
        processRaw parser bucket pfx rest
          (items ++ [{ name := relative_path, path := item_path, itype := fileS, size := row.size,
                       modified := safe_parse_date parser row.updated, etag := row.etag }])
          seen

/-- Embeds the items_cache dictionary as an association list; a Python
dict insert is modelled by prepending, and lookup takes the first hit. -/
abbrev CacheT := List (PyStr × List GCSItem)

/-- Lookup in the modelled items_cache. -/
def lookupCache (k : PyStr) : CacheT → Option (List GCSItem)
  | [] => none
  | (k2, v) :: rest => if k2 = k then some v else lookupCache k rest

/-- Embeds the GCSBrowser state used by list_items: whether self.fs is
set, and the items_cache dictionary. -/
structure Browser where
  hasFs : Bool
  items_cache : CacheT
deriving DecidableEq

/-- Embeds the cache key f-string of core.py line 170. -/
def cacheKey (bucket pfx : PyStr) : PyStr := bucket ++ slashS ++ pfx

/-- Embeds the listing path of core.py line 176:
f-string bucket/prefix with trailing slashes stripped. -/
def listPath (bucket pfx : PyStr) : PyStr := rstripSlash (bucket ++ slashS ++ pfx)

/-- Result of one list_items call: the returned list, the browser state
after the call, and how many backend ls calls were made (0 or 1). -/
structure ListResult where
  items : List GCSItem
  state : Browser
  backendCalls : Nat
deriving DecidableEq

/-- Embeds GCSBrowser.list_items (core.py lines 165 to 245). The backend
parameter models self.fs.ls(path, detail=True); an Except.error models the
call raising, which the source catches, printing a message and returning
an empty list without touching the cache. A successful uncached listing is
processed, sorted with the key of line 235 (insertion sort is stable, like
the Python sort) and stored in the cache. -/
def list_items (parser : PyStr → Option Int) (backend : PyStr → Except PyStr (List RawItem))
    (b : Browser) (bucket pfx : PyStr) : ListResult :=
  if b.hasFs = false then { items := [], state := b, backendCalls := 0 }
  else
    let key := cacheKey bucket pfx
    match lookupCache key b.items_cache with
    | some cached => { items := cached, state := b, backendCalls := 0 }
    | none =>
      match backend (listPath bucket pfx) with
      | Except.error _ => { items := [], state := b, backendCalls := 1 }
      | Except.ok rows =>
        let sorted := List.insertionSort ItemOrd (processRaw parser bucket pfx rows [] [])
        { items := sorted,
          state := { b with items_cache := (key, sorted) :: b.items_cache },
          backendCalls := 1 }

/-- Result of an fs.info call: the type and size fields, with the get
defaults of the source already applied. -/
structure Info where
  otype : PyStr
  size : Nat
deriving DecidableEq

/-- Constant string "/**", the recursive glob suffix. -/
def globStarS : PyStr := "/**".toList

/-- Embeds the accumulation loop of get_folder_size (core.py lines 257
to 263): per path, an fs.info failure is skipped, a non-file entry
contributes nothing, a file adds its size. -/
def go_size (info : PyStr → Except PyStr Info) : List PyStr → Nat → Nat
  | [], acc => acc
  | q :: rest, acc =>
    match info q with
    | Except.error _ => go_size info rest acc
    | Except.ok i =>
      if i.otype = fileS then go_size info rest (acc + i.size) else go_size info rest acc

/-- Embeds GCSBrowser.get_folder_size (core.py lines 247 to 271). The
glob parameter models self.fs.glob(pattern) and info models self.fs.info;
an Except.error models the call raising. The outer exception handler
returns 0. -/
def get_folder_size (glob : PyStr → Except PyStr (List PyStr))
    (info : PyStr → Except PyStr Info) (bucket pfx : PyStr) : Nat :=
  let path := rstripSlash (bucket ++ slashS ++ pfx)
  match glob (path ++ globStarS) with
  | Except.error _ => 0
  | Except.ok files => go_size info files 0

/-- One object of a concrete modelled object store: its full path, its
reported type, and its size. Used to state what get_folder_size computes
against a coherent backend. -/
structure StoreObj where
  opath : PyStr
  otype : PyStr
  osize : Nat
deriving DecidableEq

/-- Store-backed model of fs.glob for patterns of the shape path ++ "/**":
every stored object whose path extends path ++ "/" matches. -/
def storeGlob (store : List StoreObj) (pattern : PyStr) : Except PyStr (List PyStr) :=
  Except.ok ((store.filter (fun o => (pattern.dropLast.dropLast).isPrefixOf o.opath)).map (·.opath))

/-- Store-backed model of fs.info: the first stored object with the given
path, or an error when the path is absent. -/
def storeInfo (store : List StoreObj) (q : PyStr) : Except PyStr Info :=
  match store.find? (fun o => o.opath == q) with
  | some o => Except.ok { otype := o.otype, size := o.osize }
  | none => Except.error "not found".toList

/-- Definition following the words of the specification, for comparison
with get_folder_size: the sum of the sizes of all File objects recursively
reachable under the prefix, at unbounded depth. -/
def specRecursiveFileSum (store : List StoreObj) (p : PyStr) : Nat :=
  ((store.filter (fun o => decide (o.otype = fileS) && (p ++ slashS).isPrefixOf o.opath)).map
    (·.osize)).sum

/-- Progress events emitted by download_with_gcsfs: byte-level progress in
the single-file branch, textual milestones in the directory branch. -/
inductive Progress where
  | bytes (downloaded total : Nat)
  | msg (s : PyStr)
deriving DecidableEq

/-- Outcome of a download_with_gcsfs call: the returned boolean, the local
files written (path and content), the progress events, the printed failure
messages, and the final value of the downloaded byte accumulator of the
single-file branch (0 in the other branches). -/
structure DlResult where
  ok : Bool
  writes : List (PyStr × List Nat)
  events : List Progress
  logs : List PyStr
  transferred : Nat
deriving DecidableEq

/-- Abstract remote filesystem consumed by download_with_gcsfs: info and
glob as in the listing model, and fread modelling the successive chunk
reads of an open remote file (the object content is the join of the
chunks); an Except.error models the call raising. -/
structure RemoteFS where
  finfo : PyStr → Except PyStr Info
  fread : PyStr → Except PyStr (List (List Nat))
  fglob : PyStr → Except PyStr (List PyStr)

/-- Printed message of the outer exception handler of download_with_gcsfs
(utils.py line 160). -/
def gcsfsFailMsg (e : PyStr) : PyStr := "gcsfs download failed: ".toList ++ e

/-- Printed message of the per-file exception handler of the directory
branch (utils.py line 154). -/
def dlFailMsg (q e : PyStr) : PyStr := "Failed to download ".toList ++ q ++ ": ".toList ++ e

/-- Progress message emitted after one file of a directory download
(utils.py line 151). -/
def dlDoneMsg (rel : PyStr) : PyStr := "Downloaded: ".toList ++ rel

/-- Sum of chunk lengths, modelling the accumulation
downloaded += len(chunk) of the single-file copy loop. -/
def sumLens : List (List Nat) → Nat
  | [] => 0
  | c :: cs => c.length + sumLens cs

/-- Progress events of the single-file copy loop: one bytes event per
chunk, carrying the running total and the reported total size. -/
def chunkEvents (total : Nat) : List (List Nat) → Nat → List Progress
  | [], _ => []
  | c :: cs, acc => Progress.bytes (acc + c.length) total :: chunkEvents total cs (acc + c.length)

/-- Embeds one iteration of the directory download loop of
download_with_gcsfs (utils.py lines 130 to 155): the triple collects the
local writes, the progress events and the printed failure messages of this
file. An info or read failure is caught by the per-file handler; non-file
entries are skipped. -/
def dirStep (fs : RemoteFS) (src dst q : PyStr) :
    List (PyStr × List Nat) × List Progress × List PyStr :=
  match fs.finfo q with
  | Except.error e => ([], [], [dlFailMsg q e])
  | Except.ok i =>
    if i.otype ≠ fileS then ([], [], [])
    else
      let rel := lstripSlash (replaceAll src [] q)
      let dest_file := dst ++ slashS ++ rel
      match fs.fread q with
      | Except.error e => ([], [], [dlFailMsg q e])
      | Except.ok chunks => ([(dest_file, chunks.flatten)], [Progress.msg (dlDoneMsg rel)], [])

/-- Folds `dirStep` over the globbed file list, concatenating the
per-file effects in order. -/
def dirFold (fs : RemoteFS) (src dst : PyStr) :
    List PyStr → List (PyStr × List Nat) × List Progress × List PyStr
  | [] => ([], [], [])
  | q :: rest =>
    ((dirStep fs src dst q).1 ++ (dirFold fs src dst rest).1,
     (dirStep fs src dst q).2.1 ++ (dirFold fs src dst rest).2.1,
     (dirStep fs src dst q).2.2 ++ (dirFold fs src dst rest).2.2)

/-- Embeds the directory branch of download_with_gcsfs (utils.py lines
125 to 157): a glob failure is caught by the outer handler and the call
returns False; otherwise every globbed path is processed and the call
returns True regardless of per-file failures. -/
def download_dir (fs : RemoteFS) (source_path destination : PyStr) : DlResult :=
  match fs.fglob (source_path ++ globStarS) with
  | Except.error e =>
    { ok := false, writes := [], events := [], logs := [gcsfsFailMsg e], transferred := 0 }
  | Except.ok files =>
    let t := dirFold fs source_path destination files
    { ok := true, writes := t.1, events := t.2.1, logs := t.2.2, transferred := 0 }

/-- Embeds the is_file probe of utils.py lines 95 to 99: info of the
source, with a failure treated as not-a-file. -/
def srcIsFile (fs : RemoteFS) (source_path : PyStr) : Bool :=
  match fs.finfo source_path with
  | Except.ok i => decide (i.otype = fileS)
  | Except.error _ => false

/-- Embeds download_with_gcsfs (utils.py lines 87 to 161). The first
parameter models browser.fs (None gives False at once); destIsDir models
the Path(destination).is_dir() probe of the local filesystem. In the
single-file branch the remote content (the join of the chunk reads) is
written to the destination path and byte progress accumulates per chunk;
a read failure reaches the outer handler, which returns False. -/
def download_with_gcsfs (fsOpt : Option RemoteFS) (source_path destination : PyStr)
    (destIsDir : Bool) : DlResult :=
  match fsOpt with
  | none => { ok := false, writes := [], events := [], logs := [], transferred := 0 }
  | some fs =>
    match fs.finfo source_path with
    | Except.ok i =>
      if i.otype = fileS then
        let dest_path :=
          if destIsDir then destination ++ slashS ++ (splitOnSlash source_path).getLastD []
          else destination
        match fs.fread source_path with
        | Except.ok chunks =>
          { ok := true, writes := [(dest_path, chunks.flatten)],
            events := chunkEvents i.size chunks 0,
            logs := [], transferred := sumLens chunks }
        | Except.error e =>
          { ok := false, writes := [], events := [], logs := [gcsfsFailMsg e], transferred := 0 }
      else download_dir fs source_path destination
    | Except.error _ => download_dir fs source_path destination

/-- Python exceptions relevant to sync_with_rsync. -/
inductive PyExc where
  | typeError (msg : PyStr)
deriving DecidableEq

/-- Models the call download_with_gsutil(source, temp_dir, recursive=True,
verbose=verbose) of utils.py line 176. download_with_gsutil (utils.py line
49) takes the parameters source, destination, recursive, parallel and
progress_callback and has no verbose parameter, so Python raises TypeError
at this call, before any scratch copy work begins. -/
def scratch_copy_call : Except PyExc Bool :=
  Except.error (PyExc.typeError "unexpected keyword argument verbose".toList)

/-- Observable outcome of a sync_with_rsync call: the returned boolean,
whether the scratch gsutil copy ran, whether the rsync subprocess ran, and
whether the temporary scratch directory was created and removed. -/
structure SyncResult where
  ok : Bool
  scratchCopyRan : Bool
  rsyncRan : Bool
  tempCreated : Bool
  tempRemoved : Bool
deriving DecidableEq

/-- Embeds sync_with_rsync (utils.py lines 164 to 214). On Windows the
call returns False at once. Otherwise tempfile.TemporaryDirectory creates
the scratch directory and removes it on every exit of the with block; the
body first evaluates `scratch_copy_call`, whose TypeError is caught by the
outer handler, so the scratch copy and rsync phases never run. The dead
branches beyond the failing call model lines 177 to 210 as written. -/
def sync_with_rsync (isWindows : Bool) (rsyncExit : Int)
    (_dry_run _del _verbose : Bool) : SyncResult :=
  if isWindows then
    { ok := false, scratchCopyRan := false, rsyncRan := false,
      tempCreated := false, tempRemoved := false }
  else
    match scratch_copy_call with
    | Except.error _ =>
      { ok := false, scratchCopyRan := false, rsyncRan := false,
        tempCreated := true, tempRemoved := true }
    | Except.ok okScratch =>
      if okScratch = false then
        { ok := false, scratchCopyRan := true, rsyncRan := false,
          tempCreated := true, tempRemoved := true }
      else if rsyncExit = 0 then
        { ok := true, scratchCopyRan := true, rsyncRan := true,
          tempCreated := true, tempRemoved := true }
      else
        { ok := false, scratchCopyRan := true, rsyncRan := true,
          tempCreated := true, tempRemoved := true }

/-- Embeds the DownloadJob dataclass (core.py lines 57 to 73). -/
structure DownloadJob where
  source_path : PyStr
  destination : PyStr
  total_size : Nat
  downloaded_size : Nat
  status : PyStr
  error_msg : Option PyStr

/-- Embeds the progress_percent property (core.py lines 69 to 73), with
real division modelled over the rationals. -/
def progress_percent (j : DownloadJob) : ℚ :=
  if j.total_size = 0 then 0 else ((j.downloaded_size : ℚ) / (j.total_size : ℚ)) * 100

/-- Folder predicate on projected entries. -/
def IsFolderE (x : GCSItem) : Prop := x.itype = folderS

/-- Ordering contract of the specification for one adjacent pair: either
the left entry is a Folder and the right a File, or both have the same
kind and the lowered names are in ascending lexicographic order. -/
def SpecOrder (a b : GCSItem) : Prop :=
  (IsFolderE a ∧ ¬ IsFolderE b) ∨
  ((IsFolderE a ↔ IsFolderE b) ∧ lexLE (toLowerPy a.name) (toLowerPy b.name) = true)

/-- A listing is sorted per the specification when every pair of entries,
in order, satisfies `SpecOrder`: all Folder entries precede all File
entries and each kind is in ascending case-insensitive name order. -/
def SortedListing (l : List GCSItem) : Prop := l.Pairwise SpecOrder

/-- Invariant of the browser state: every cached listing is sorted. It
holds of the freshly constructed browser (empty cache) and is preserved
by list_items. -/
def CacheSorted (b : Browser) : Prop := ∀ k v, (k, v) ∈ b.items_cache → SortedListing v

/-- Names of the Folder entries of a listing, in order. -/
def folderNames (l : List GCSItem) : List PyStr :=
  (l.filter (fun x => decide (x.itype = folderS))).map (·.name)

/-- Invariant of the browser state: every cached listing has pairwise
distinct Folder names. -/
def CacheFolderNodup (b : Browser) : Prop :=
  ∀ k v, (k, v) ∈ b.items_cache → (folderNames v).Nodup

/-- Date parser that fails on every input, modelling dateutil rejecting a
malformed string. -/
def pN : PyStr → Option Int := fun _ => none

/-- Browser right after construction: connected, empty cache. -/
def browser0 : Browser := { hasFs := true, items_cache := [] }

/-- Backend whose listing call always raises. -/
def failB : PyStr → Except PyStr (List RawItem) := fun _ => Except.error "backend down".toList

/-- Backend that returns an empty listing for every path. -/
def okEmptyB : PyStr → Except PyStr (List RawItem) := fun _ => Except.ok []

/-- Concrete listing rows for the C1 witness: two files and one directory
marker, in a deliberately unsorted order. -/
def rowsW1 : List RawItem :=
  [ { name := "b/z".toList, rtype := fileS, size := 3, updated := PyDate.pnone, etag := none },
    { name := "b/A".toList, rtype := fileS, size := 1,
      updated := PyDate.raw "bad".toList, etag := none },
    { name := "b/m".toList, rtype := dirS, size := 0, updated := PyDate.pnone, etag := none } ]

/-- Backend serving `rowsW1`. -/
def backendW1 : PyStr → Except PyStr (List RawItem) := fun _ => Except.ok rowsW1

/-- Concrete listing rows for the C3 counterexample: a directory marker
and a file that share the name x at the same level. -/
def rowsW3 : List RawItem :=
  [ { name := "b/x".toList, rtype := dirS, size := 0, updated := PyDate.pnone, etag := none },
    { name := "b/x".toList, rtype := fileS, size := 5, updated := PyDate.pnone, etag := none } ]

/-- Backend serving `rowsW3`. -/
def backendW3 : PyStr → Except PyStr (List RawItem) := fun _ => Except.ok rowsW3

/-- Concrete listing row for the C8 counterexample: a file whose updated
field is an unparseable string. -/
def rowsW8 : List RawItem :=
  [ { name := "b/g".toList, rtype := fileS, size := 1,
      updated := PyDate.raw "not a date".toList, etag := none } ]

/-- Backend serving `rowsW8`. -/
def backendW8 : PyStr → Except PyStr (List RawItem) := fun _ => Except.ok rowsW8

/-- Concrete store for the C5 witness: files of sizes 10, 20 and 5 at
depth two and one file of size 100 at depth one below bucket b and
prefix f, plus a directory marker. -/
def storeW5 : List StoreObj :=
  [ { opath := "b/f/d".toList, otype := dirS, osize := 0 },
    { opath := "b/f/d/x".toList, otype := fileS, osize := 10 },
    { opath := "b/f/d/y".toList, otype := fileS, osize := 20 },
    { opath := "b/f/d/z".toList, otype := fileS, osize := 5 },
    { opath := "b/f/w".toList, otype := fileS, osize := 100 } ]

/-- Source directory of the C6 witness. -/
def srcW : PyStr := "r".toList

/-- Globbed file list of the C6 witness: five files under the source. -/
def filesW6 : List PyStr :=
  ["r/a".toList, "r/b".toList, "r/c".toList, "r/d".toList, "r/e".toList]

/-- Remote filesystem of the C6 witness: the source is a directory, every
file reads one chunk, except r/c whose read raises. -/
def fsW6 : RemoteFS :=
  { finfo := fun q => if q = srcW then Except.ok { otype := dirS, size := 0 }
      else Except.ok { otype := fileS, size := 1 },
    fread := fun q => if q = "r/c".toList then Except.error "read error".toList
      else Except.ok [[7]],
    fglob := fun _ => Except.ok filesW6 }

/-- Remote filesystem of the C9 witness: a single file of five bytes read
in two chunks. -/
def fsW9 : RemoteFS :=
  { finfo := fun _ => Except.ok { otype := fileS, size := 5 },
    fread := fun _ => Except.ok [[1, 2], [3, 4, 5]],
    fglob := fun _ => Except.ok [] }

/-- Remote filesystem of the C6 counterexample: the source is the
directory b/d and the single globbed object is b/d/b/d/f, whose path
contains the source string a second time after the leading prefix. -/
def fsC6 : RemoteFS :=
  { finfo := fun q => if q = "b/d".toList then Except.ok { otype := dirS, size := 0 }
      else Except.ok { otype := fileS, size := 1 },
    fread := fun _ => Except.ok [[9]],
    fglob := fun _ => Except.ok ["b/d/b/d/f".toList] }

/-! ## Helper lemmas -/

lemma lexLE_total : ∀ s t : PyStr, lexLE s t = true ∨ lexLE t s = true
  | [], _ => Or.inl rfl
  | _ :: _, [] => Or.inr rfl
  | a :: as, b :: bs => by
    by_cases hab : a = b
    · subst hab
      simpa [lexLE] using lexLE_total as bs
    · rcases lt_or_gt_of_ne hab with h | h
      · exact Or.inl (by simp [lexLE, hab, h])
      · have hba : ¬ b = a := fun e => hab e.symm
        exact Or.inr (by simp [lexLE, hba, h])

lemma lexLE_trans : ∀ s t u : PyStr,
    lexLE s t = true → lexLE t u = true → lexLE s u = true
  | [], _, _, _, _ => rfl
  | _ :: _, [], _, h1, _ => absurd h1 (by simp [lexLE])
  | _ :: _, _ :: _, [], _, h2 => absurd h2 (by simp [lexLE])
  | a :: as, b :: bs, c :: cs, h1, h2 => by
    by_cases hab : a = b
    · subst hab
      by_cases hac : a = c
      · subst hac
        simp only [lexLE, if_pos rfl] at h1 h2 ⊢
        exact lexLE_trans as bs cs h1 h2
      · simp only [lexLE, if_pos rfl] at h1
        simp only [lexLE, if_neg hac] at h2 ⊢
        exact h2
    · simp only [lexLE, if_neg hab] at h1
      by_cases hbc : b = c
      · subst hbc
        simpa [lexLE, hab] using h1
      · simp only [lexLE, if_neg hbc] at h2
        have hac : a < c := lt_trans (of_decide_eq_true h1) (of_decide_eq_true h2)
        simp [lexLE, ne_of_lt hac, hac]

lemma itemOrd_total (x y : GCSItem) : ItemOrd x y ∨ ItemOrd y x := by
  unfold ItemOrd itemLE
  cases hx : fileFlag x <;> cases hy : fileFlag y <;> simp
  · exact lexLE_total _ _
  · exact lexLE_total _ _

lemma itemOrd_trans (x y z : GCSItem) : ItemOrd x y → ItemOrd y z → ItemOrd x z := by
  unfold ItemOrd itemLE
  cases hx : fileFlag x <;> cases hy : fileFlag y <;> cases hz : fileFlag z <;> simp
  · exact fun h1 h2 => lexLE_trans _ _ _ h1 h2
  · exact fun h1 h2 => lexLE_trans _ _ _ h1 h2

instance : IsTotal GCSItem ItemOrd := ⟨itemOrd_total⟩

instance : IsTrans GCSItem ItemOrd := ⟨itemOrd_trans⟩

lemma itemOrd_specOrder {a b : GCSItem} (h : ItemOrd a b) : SpecOrder a b := by
  unfold ItemOrd itemLE fileFlag at h
  unfold SpecOrder IsFolderE
  by_cases ha : a.itype = folderS <;> by_cases hb : b.itype = folderS <;>
    simp [ha, hb] at h ⊢
  · exact h
  · exact h

lemma sorted_itemOrd_specOrder {l : List GCSItem} (h : List.Pairwise ItemOrd l) :
    SortedListing l :=
  List.Pairwise.imp (fun hab => itemOrd_specOrder hab) h

lemma lookupCache_mem {k : PyStr} {v : List GCSItem} :
    ∀ {c : CacheT}, lookupCache k c = some v → (k, v) ∈ c
  | [], h => by simp [lookupCache] at h
  | (k2, v2) :: rest, h => by
    by_cases he : k2 = k
    · subst he
      have h2 : v2 = v := by simpa [lookupCache] using h
      subst h2
      exact List.mem_cons_self _ _
    · have h2 : lookupCache k rest = some v := by
        simpa [lookupCache, he] using h
      exact List.mem_cons_of_mem _ (lookupCache_mem h2)

/-! ## C1 -/

/-- C1: for every bucket and prefix (and any browser state whose cached
listings are themselves sorted, as every state reachable from the fresh
browser is), the sequence returned by list_items has all Folder entries
before all File entries, and within each kind ascending case-insensitive
lexicographic order of names; the invariant is preserved. -/
theorem C1_listing_sorted (parser : PyStr → Option Int)
    (backend : PyStr → Except PyStr (List RawItem)) (b : Browser) (bucket pfx : PyStr)
    (hc : CacheSorted b) :
    SortedListing (list_items parser backend b bucket pfx).items ∧
    CacheSorted (list_items parser backend b bucket pfx).state := by
  simp only [list_items]
  by_cases hfs : b.hasFs = false
  · rw [if_pos hfs]
    exact ⟨List.Pairwise.nil, hc⟩
  · rw [if_neg hfs]
    cases hl : lookupCache (cacheKey bucket pfx) b.items_cache with
    | some cached =>
      exact ⟨hc _ _ (lookupCache_mem hl), hc⟩
    | none =>
      cases hb : backend (listPath bucket pfx) with
      | error e => exact ⟨List.Pairwise.nil, hc⟩
      | ok rows =>
        constructor
        · exact sorted_itemOrd_specOrder
            (List.sorted_insertionSort ItemOrd (processRaw parser bucket pfx rows [] []))
        · intro k v hm
          rcases List.mem_cons.mp hm with h | h
          · rw [Prod.mk.injEq] at h
            rw [h.2]
            exact sorted_itemOrd_specOrder
              (List.sorted_insertionSort ItemOrd (processRaw parser bucket pfx rows [] []))
          · exact hc _ _ h

/-- Witness for C1 at a concrete backend and the fresh browser. -/
theorem C1_listing_sorted_witness :
    SortedListing (list_items pN backendW1 browser0 "b".toList []).items :=
  (C1_listing_sorted pN backendW1 browser0 "b".toList []
    (fun k v h => absurd h (List.not_mem_nil (k, v)))).1

/-! ## C2 -/

/-- C2, amended: if the backend listing for the qualified path does not
fail, two consecutive list_items calls with no intervening navigation or
cache invalidation return identical sequences and the second call makes
no backend call. (After a failed listing nothing is cached, so a second
call does contact the backend again; see the counterexample.) -/
theorem C2_second_list_cached (parser : PyStr → Option Int)
    (backend : PyStr → Except PyStr (List RawItem)) (b : Browser) (bucket pfx : PyStr)
    (hok : ∀ e, backend (listPath bucket pfx) ≠ Except.error e) :
    (list_items parser backend (list_items parser backend b bucket pfx).state bucket pfx).items
      = (list_items parser backend b bucket pfx).items ∧
    (list_items parser backend
        (list_items parser backend b bucket pfx).state bucket pfx).backendCalls = 0 := by
  by_cases hfs : b.hasFs = false
  · simp [list_items, hfs]
  · cases hl : lookupCache (cacheKey bucket pfx) b.items_cache with
    | some cached => simp [list_items, hfs, hl]
    | none =>
      cases hb : backend (listPath bucket pfx) with
      | error e => exact absurd hb (hok e)
      | ok rows => simp [list_items, hfs, hl, hb, lookupCache]

/-- Witness for C2 at a concrete succeeding backend and the fresh
browser. -/
theorem C2_second_list_cached_witness :
    (list_items pN okEmptyB (list_items pN okEmptyB browser0 "b".toList []).state
        "b".toList []).items
      = (list_items pN okEmptyB browser0 "b".toList []).items ∧
    (list_items pN okEmptyB (list_items pN okEmptyB browser0 "b".toList []).state
        "b".toList []).backendCalls = 0 :=
  C2_second_list_cached pN okEmptyB browser0 "b".toList []
    (fun e h => by simp [okEmptyB] at h)

/-- Counterexample to C2 as stated: with a backend whose listing call
fails, the first call returns an empty sequence without caching it, so the
second consecutive call performs a backend listing call again (count 1,
not 0); the claim asserts the second call performs no backend call. The
returned sequences are still identical. -/
theorem C2_counterexample :
    (list_items pN failB (list_items pN failB browser0 "b".toList []).state
        "b".toList []).backendCalls = 1 ∧
    (list_items pN failB (list_items pN failB browser0 "b".toList []).state
        "b".toList []).items
      = (list_items pN failB browser0 "b".toList []).items := by decide

/-! ## C4 -/

/-- C4, amended: when the backend listing call fails, list_items catches
the exception, returns an empty sequence to the immediate caller (the same
value an empty prefix yields, not a distinguished error), and never stores
the failed result: the browser state, cache included, is unchanged. A
prefix that matches no objects returns an empty sequence. -/
theorem C4_failure_empty_uncached (parser : PyStr → Option Int)
    (backend : PyStr → Except PyStr (List RawItem)) (b : Browser) (bucket pfx : PyStr)
    (hfs : b.hasFs = true)
    (hmiss : lookupCache (cacheKey bucket pfx) b.items_cache = none) :
    (∀ e, backend (listPath bucket pfx) = Except.error e →
        (list_items parser backend b bucket pfx).items = [] ∧
        (list_items parser backend b bucket pfx).state = b) ∧
    (backend (listPath bucket pfx) = Except.ok [] →
        (list_items parser backend b bucket pfx).items = []) := by
  constructor
  · intro e he
    simp [list_items, hfs, hmiss, he]
  · intro he
    simp [list_items, hfs, hmiss, he, processRaw]

/-- Witness for C4 at a concrete failing backend and the fresh browser. -/
theorem C4_failure_empty_uncached_witness :
    (list_items pN failB browser0 "c".toList []).items = [] ∧
    (list_items pN failB browser0 "c".toList []).state = browser0 :=
  (C4_failure_empty_uncached pN failB browser0 "c".toList [] rfl rfl).1
    "backend down".toList rfl

/-- Counterexample to C4 as stated: a failing backend listing produces
exactly the same caller-visible result (an empty sequence) as a backend
that lists no objects; no BackendUnavailable or BackendError value reaches
the immediate caller, the error is only printed. -/
theorem C4_counterexample :
    (list_items pN failB browser0 "b".toList []).items = [] ∧
    (list_items pN failB browser0 "b".toList []).items
      = (list_items pN okEmptyB browser0 "b".toList []).items := by decide

/-! ## C3 -/

lemma folderNames_append_folder (l : List GCSItem) (x : GCSItem) (hx : x.itype = folderS) :
    folderNames (l ++ [x]) = folderNames l ++ [x.name] := by
  simp [folderNames, List.filter_append, hx]

lemma folderNames_append_file (l : List GCSItem) (x : GCSItem) (hx : x.itype = fileS) :
    folderNames (l ++ [x]) = folderNames l := by
  simp [folderNames, List.filter_append, hx,
    (by decide : (decide (fileS = folderS)) = false)]

/-- Invariant of the listing loop: when the accumulated Folder names are
pairwise distinct and all recorded in `seen` (the folders_seen set), the
loop keeps the Folder names pairwise distinct. -/
lemma processRaw_folderNames_nodup (parser : PyStr → Option Int) (bucket pfx : PyStr) :
    ∀ (rows : List RawItem) (items : List GCSItem) (seen : List PyStr),
      (folderNames items).Nodup → (∀ n ∈ folderNames items, n ∈ seen) →
      (folderNames (processRaw parser bucket pfx rows items seen)).Nodup := by
  intro rows
  induction rows with
  | nil =>
    intro items seen h1 _
    simpa [processRaw] using h1
  | cons row rest ih =>
    intro items seen h1 h2
    simp only [processRaw]
    repeat' split
    all_goals first
      | exact ih items seen h1 h2
      | (apply ih
         · rw [folderNames_append_file _ _ rfl]
           exact h1
         · intro n hn
           rw [folderNames_append_file _ _ rfl] at hn
           exact h2 n hn)
      | (rename_i hnm
         apply ih
         · rw [folderNames_append_folder _ _ rfl]
           exact ((List.perm_append_singleton _ _).nodup_iff).mpr
             (List.nodup_cons.mpr ⟨fun hmem => hnm (h2 _ hmem), h1⟩)
         · intro n hn
           rw [folderNames_append_folder _ _ rfl] at hn
           rcases List.mem_append.mp hn with h | h
           · exact List.mem_cons_of_mem _ (h2 n h)
           · rcases List.mem_singleton.mp h with rfl
             exact List.mem_cons_self _ _)

/-- C3, amended: within one listing result (from any browser state whose
cached listings satisfy the same property), the Folder entries have
pairwise distinct names, deduplicated through the folders_seen set; but a
direct file sharing its name with a folder at the same level is not
merged: both entries appear and name values are then not unique (see the
counterexample). -/
theorem C3_folder_names_nodup (parser : PyStr → Option Int)
    (backend : PyStr → Except PyStr (List RawItem)) (b : Browser) (bucket pfx : PyStr)
    (hc : CacheFolderNodup b) :
    (folderNames (list_items parser backend b bucket pfx).items).Nodup ∧
    CacheFolderNodup (list_items parser backend b bucket pfx).state := by
  simp only [list_items]
  by_cases hfs : b.hasFs = false
  · rw [if_pos hfs]
    exact ⟨List.Pairwise.nil, hc⟩
  · rw [if_neg hfs]
    cases hl : lookupCache (cacheKey bucket pfx) b.items_cache with
    | some cached =>
      exact ⟨hc _ _ (lookupCache_mem hl), hc⟩
    | none =>
      cases hb : backend (listPath bucket pfx) with
      | error e => exact ⟨List.Pairwise.nil, hc⟩
      | ok rows =>
        have hperm : List.Perm
            (folderNames (List.insertionSort ItemOrd (processRaw parser bucket pfx rows [] [])))
            (folderNames (processRaw parser bucket pfx rows [] [])) :=
          ((List.perm_insertionSort ItemOrd _).filter _).map _
        have hnd : (folderNames (List.insertionSort ItemOrd
            (processRaw parser bucket pfx rows [] []))).Nodup :=
          hperm.nodup_iff.mpr
            (processRaw_folderNames_nodup parser bucket pfx rows [] []
              List.Pairwise.nil (fun n hn => absurd hn (List.not_mem_nil n)))
        constructor
        · exact hnd
        · intro k v hm
          rcases List.mem_cons.mp hm with h | h
          · rw [Prod.mk.injEq] at h
            rw [h.2]
            exact hnd
          · exact hc _ _ h

/-- Witness for C3 at a concrete backend and the fresh browser. -/
theorem C3_folder_names_nodup_witness :
    (folderNames (list_items pN backendW3 browser0 "b".toList []).items).Nodup :=
  (C3_folder_names_nodup pN backendW3 browser0 "b".toList []
    (fun k v h => absurd h (List.not_mem_nil (k, v)))).1

/-- Counterexample to C3 as stated: a backend listing holding a directory
marker b/x and an object b/x produces one Folder entry named x and one
File entry named x; the two are not merged into a single Folder entry and
the name values of the listing are not pairwise distinct. -/
theorem C3_counterexample :
    ((list_items pN backendW3 browser0 "b".toList []).items.map
      (fun x => (x.name, x.itype))) = [("x".toList, folderS), ("x".toList, fileS)] ∧
    ¬ ((list_items pN backendW3 browser0 "b".toList []).items.map (fun x => x.name)).Nodup := by
  constructor
  · decide
  · decide

/-! ## C5 -/

lemma dropStars (p : PyStr) : (p ++ globStarS).dropLast.dropLast = p ++ slashS := by
  show (p ++ ['/', '*', '*']).dropLast.dropLast = p ++ ['/']
  rw [show p ++ ['/', '*', '*'] = (p ++ ['/', '*']) ++ ['*'] by simp]
  rw [List.dropLast_concat]
  rw [show p ++ ['/', '*'] = (p ++ ['/']) ++ ['*'] by simp]
  rw [List.dropLast_concat]

lemma storeInfo_self : ∀ (store : List StoreObj),
    (store.map (fun o => o.opath)).Nodup →
    ∀ o ∈ store, storeInfo store o.opath = Except.ok { otype := o.otype, size := o.osize }
  | [], _, o, ho => absurd ho (List.not_mem_nil o)
  | s :: rest, hnd, o, ho => by
    have hnd2 : s.opath ∉ rest.map (fun o => o.opath) ∧
        (rest.map (fun o => o.opath)).Nodup :=
      List.nodup_cons.mp (by simpa using hnd)
    rcases List.mem_cons.mp ho with rfl | hmem
    · simp [storeInfo]
    · have hne : s.opath ≠ o.opath := by
        intro he
        exact hnd2.1 (he ▸ List.mem_map_of_mem (fun o => o.opath) hmem)
      have hbe : (s.opath == o.opath) = false := beq_eq_false_iff_ne.mpr hne
      have hrec := storeInfo_self rest hnd2.2 o hmem
      simpa [storeInfo, List.find?, hbe] using hrec

lemma go_size_store (store : List StoreObj)
    (hnd : (store.map (fun o => o.opath)).Nodup) :
    ∀ (l : List StoreObj), (∀ o ∈ l, o ∈ store) →
      ∀ acc, go_size (storeInfo store) (l.map (fun o => o.opath)) acc
        = acc + ((l.filter (fun o => decide (o.otype = fileS))).map (fun o => o.osize)).sum := by
  intro l
  induction l with
  | nil => intro _ acc; simp [go_size]
  | cons o rest ih =>
    intro hsub acc
    have hinfo := storeInfo_self store hnd o (hsub o (List.mem_cons_self _ _))
    have hsub2 : ∀ x ∈ rest, x ∈ store := fun x hx => hsub x (List.mem_cons_of_mem _ hx)
    by_cases hty : o.otype = fileS
    · have hstep : go_size (storeInfo store) (o.opath :: rest.map (fun o => o.opath)) acc
          = go_size (storeInfo store) (rest.map (fun o => o.opath)) (acc + o.osize) := by
        simp [go_size, hinfo, hty]
      rw [List.map_cons, hstep, ih hsub2]
      rw [List.filter_cons_of_pos (by simp [hty]), List.map_cons, List.sum_cons]
      omega
    · have hstep : go_size (storeInfo store) (o.opath :: rest.map (fun o => o.opath)) acc
          = go_size (storeInfo store) (rest.map (fun o => o.opath)) acc := by
        simp [go_size, hinfo, hty]
      rw [List.map_cons, hstep, ih hsub2, List.filter_cons_of_neg (by simp [hty])]

/-- C5: get_folder_size over a coherent store-backed backend computes
exactly the sum of the sizes of all File objects recursively reachable
under bucket/prefix at unbounded depth; and when the recursive glob call
fails, the outer handler returns 0 instead of propagating. -/
theorem C5_folder_size_exact (glob : PyStr → Except PyStr (List PyStr))
    (info : PyStr → Except PyStr Info) (store : List StoreObj) (bucket pfx : PyStr)
    (hnd : (store.map (fun o => o.opath)).Nodup) :
    (∀ e, glob (listPath bucket pfx ++ globStarS) = Except.error e →
        get_folder_size glob info bucket pfx = 0) ∧
    get_folder_size (storeGlob store) (storeInfo store) bucket pfx
      = specRecursiveFileSum store (listPath bucket pfx) := by
  constructor
  · intro e he
    simp only [get_folder_size]
    rw [show rstripSlash (bucket ++ slashS ++ pfx) = listPath bucket pfx from rfl, he]
  · simp only [get_folder_size, storeGlob,
      show rstripSlash (bucket ++ slashS ++ pfx) = listPath bucket pfx from rfl, dropStars]
    rw [go_size_store store hnd (store.filter
        (fun o => (listPath bucket pfx ++ slashS).isPrefixOf o.opath))
      (fun o ho => List.mem_of_mem_filter ho) 0]
    simp only [Nat.zero_add, specRecursiveFileSum, List.filter_filter]

/-- Witness for C5 at the concrete store of the specification example:
sizes 10, 20 and 5 at depth two plus 100 at depth one sum to 135. -/
theorem C5_folder_size_exact_witness :
    get_folder_size (storeGlob storeW5) (storeInfo storeW5) "b".toList "f".toList = 135 :=
  ((C5_folder_size_exact (storeGlob storeW5) (storeInfo storeW5) storeW5
      "b".toList "f".toList (by decide)).2).trans (by decide)

/-! ## C6 -/

lemma download_dir_of_not_file (fs : RemoteFS) (src dst : PyStr) (dI : Bool)
    (h : srcIsFile fs src = false) :
    download_with_gcsfs (some fs) src dst dI = download_dir fs src dst := by
  simp only [download_with_gcsfs]
  unfold srcIsFile at h
  cases hf : fs.finfo src with
  | error e => rfl
  | ok i =>
    rw [hf] at h
    rw [decide_eq_false_iff_not] at h
    simp [h]

lemma dirFold_mem_writes (fs : RemoteFS) (src dst : PyStr) :
    ∀ (l : List PyStr) (q : PyStr), q ∈ l →
      ∀ w ∈ (dirStep fs src dst q).1, w ∈ (dirFold fs src dst l).1 := by
  intro l
  induction l with
  | nil => intro q hq; cases hq
  | cons a rest ih =>
    intro q hq w hw
    simp only [dirFold]
    rcases List.mem_cons.mp hq with rfl | hmem
    · exact List.mem_append_left _ hw
    · exact List.mem_append_right _ (ih q hmem w hw)

lemma dirFold_mem_logs (fs : RemoteFS) (src dst : PyStr) :
    ∀ (l : List PyStr) (q : PyStr), q ∈ l →
      ∀ m ∈ (dirStep fs src dst q).2.2, m ∈ (dirFold fs src dst l).2.2 := by
  intro l
  induction l with
  | nil => intro q hq; cases hq
  | cons a rest ih =>
    intro q hq m hm
    simp only [dirFold]
    rcases List.mem_cons.mp hq with rfl | hmem
    · exact List.mem_append_left _ hm
    · exact List.mem_append_right _ (ih q hmem m hm)

/-- C6, amended: in a native gcsfs directory transfer, one failing file
does not abort the transfer: every globbed file whose info and read
succeed is written to destinationRoot / the file's path with every
occurrence of the source string removed (Python replace-all) and leading
slashes stripped — which coincides with the source-relative path exactly
when the source string does not recur later in the path, but not in
general (see the counterexample); every per-file read failure is reported
through an explicit printed failure message, and the call still returns
True; only a failure of the top-level enumeration (the recursive glob of
the source) makes the whole transfer return False. -/
theorem C6_dir_transfer_tolerant (fs : RemoteFS) (src dst : PyStr) (dI : Bool)
    (hsrc : srcIsFile fs src = false) :
    (∀ e, fs.fglob (src ++ globStarS) = Except.error e →
        (download_with_gcsfs (some fs) src dst dI).ok = false) ∧
    (∀ files, fs.fglob (src ++ globStarS) = Except.ok files →
        (download_with_gcsfs (some fs) src dst dI).ok = true ∧
        (∀ q i chunks, q ∈ files → fs.finfo q = Except.ok i → i.otype = fileS →
            fs.fread q = Except.ok chunks →
            (dst ++ slashS ++ lstripSlash (replaceAll src [] q), chunks.flatten)
              ∈ (download_with_gcsfs (some fs) src dst dI).writes) ∧
        (∀ q i e, q ∈ files → fs.finfo q = Except.ok i → i.otype = fileS →
            fs.fread q = Except.error e →
            dlFailMsg q e ∈ (download_with_gcsfs (some fs) src dst dI).logs)) := by
  rw [download_dir_of_not_file fs src dst dI hsrc]
  constructor
  · intro e he
    simp [download_dir, he]
  · intro files hg
    simp only [download_dir, hg]
    refine ⟨trivial, ?_, ?_⟩
    · intro q i chunks hq hinfo hty hread
      have hstep : (dst ++ slashS ++ lstripSlash (replaceAll src [] q), chunks.flatten)
          ∈ (dirStep fs src dst q).1 := by
        simp [dirStep, hinfo, hty, hread]
      exact dirFold_mem_writes fs src dst files q hq _ hstep
    · intro q i e hq hinfo hty hread
      have hstep : dlFailMsg q e ∈ (dirStep fs src dst q).2.2 := by
        simp [dirStep, hinfo, hty, hread]
      exact dirFold_mem_logs fs src dst files q hq _ hstep

/-- Witness for C6 at a concrete five-file directory where the read of
r/c fails: the transfer still returns True, r/d is written, and the
failure of r/c is reported in the printed failure messages. -/
theorem C6_dir_transfer_tolerant_witness :
    (download_with_gcsfs (some fsW6) srcW "loc".toList false).ok = true ∧
    ("loc".toList ++ slashS ++ lstripSlash (replaceAll srcW [] "r/d".toList),
        List.flatten [[7]])
      ∈ (download_with_gcsfs (some fsW6) srcW "loc".toList false).writes ∧
    dlFailMsg "r/c".toList "read error".toList
      ∈ (download_with_gcsfs (some fsW6) srcW "loc".toList false).logs := by
  have h := (C6_dir_transfer_tolerant fsW6 srcW "loc".toList false (by decide)).2
    filesW6 rfl
  exact ⟨h.1,
    h.2.1 "r/d".toList { otype := fileS, size := 1 } [[7]] (by decide) rfl rfl rfl,
    h.2.2 "r/c".toList { otype := fileS, size := 1 } "read error".toList (by decide)
      rfl rfl rfl⟩

/-- Counterexample to C6 as stated: the per-file destination is computed
with file_path.replace(source_path, ""), which removes every occurrence
of the source string, not only the leading prefix. For source b/d and the
globbed object b/d/b/d/f (source-relative path b/d/f), the file is
written to loc/f, and nothing is written to loc/b/d/f, the destination
the claim requires. -/
theorem C6_counterexample :
    (download_with_gcsfs (some fsC6) "b/d".toList "loc".toList false).writes
      = [("loc/f".toList, [9])] ∧
    ("loc/b/d/f".toList, [9])
      ∉ (download_with_gcsfs (some fsC6) "b/d".toList "loc".toList false).writes := by
  constructor
  · decide
  · decide

/-! ## C9 -/

lemma sumLens_eq_flatten_length : ∀ cs : List (List Nat), sumLens cs = cs.flatten.length
  | [] => rfl
  | c :: cs => by simp [sumLens, sumLens_eq_flatten_length cs]

/-- C9: a single-file native gcsfs copy that completes successfully
writes the full source object content (the concatenation of all chunks
read) to the destination file, byte for byte, and the accumulated
downloaded byte counter equals the reported total size when the backend
size field is coherent with the content. -/
theorem C9_single_file_copy (fs : RemoteFS) (src dst : PyStr) (dI : Bool) (i : Info)
    (chunks : List (List Nat)) (hinfo : fs.finfo src = Except.ok i) (hty : i.otype = fileS)
    (hread : fs.fread src = Except.ok chunks) (hsz : i.size = chunks.flatten.length) :
    (download_with_gcsfs (some fs) src dst dI).ok = true ∧
    (download_with_gcsfs (some fs) src dst dI).writes =
      [(if dI then dst ++ slashS ++ (splitOnSlash src).getLastD [] else dst, chunks.flatten)] ∧
    (download_with_gcsfs (some fs) src dst dI).transferred = i.size := by
  simp [download_with_gcsfs, hinfo, hty, hread, hsz, sumLens_eq_flatten_length]

/-- Witness for C9 at a concrete single file of five bytes read in two
chunks. -/
theorem C9_single_file_copy_witness :
    (download_with_gcsfs (some fsW9) "o".toList "d".toList false).ok = true ∧
    (download_with_gcsfs (some fsW9) "o".toList "d".toList false).writes =
      [("d".toList, [1, 2, 3, 4, 5])] ∧
    (download_with_gcsfs (some fsW9) "o".toList "d".toList false).transferred = 5 :=
  C9_single_file_copy fsW9 "o".toList "d".toList false { otype := fileS, size := 5 }
    [[1, 2], [3, 4, 5]] rfl rfl rfl (by decide)

/-! ## C7 -/

/-- C7: for every mirror/reconcile invocation, the scratch-copy phase
failing means the rsync reconciliation phase is never executed and the
operation reports failure, and the temporary scratch directory is removed
on every exit path on which it was created. In this code the scratch-copy
call fails on every non-Windows invocation (it passes the keyword
argument verbose, which download_with_gsutil does not accept, raising
TypeError at the call), so the guarantees are established in the strong
unconditional form: the call always returns False, rsync never runs, and
the with block of TemporaryDirectory removes the scratch directory
whenever one was created. -/
theorem C7_sync_rsync_never_reconciles (isWindows : Bool) (rsyncExit : Int)
    (d1 d2 d3 : Bool) :
    (sync_with_rsync isWindows rsyncExit d1 d2 d3).ok = false ∧
    (sync_with_rsync isWindows rsyncExit d1 d2 d3).scratchCopyRan = false ∧
    (sync_with_rsync isWindows rsyncExit d1 d2 d3).rsyncRan = false ∧
    ((sync_with_rsync isWindows rsyncExit d1 d2 d3).tempCreated = true →
      (sync_with_rsync isWindows rsyncExit d1 d2 d3).tempRemoved = true) := by
  cases isWindows <;> simp [sync_with_rsync, scratch_copy_call]

/-- Witness for C7 at a concrete non-Windows invocation. -/
theorem C7_sync_rsync_never_reconciles_witness :
    (sync_with_rsync false 0 false false false).rsyncRan = false ∧
    (sync_with_rsync false 0 false false false).tempRemoved = true :=
  ⟨(C7_sync_rsync_never_reconciles false 0 false false false).2.2.1,
   (C7_sync_rsync_never_reconciles false 0 false false false).2.2.2 rfl⟩

/-! ## C8 -/

/-- C8, amended: a missing or falsy timestamp value degrades to absent
(None), but a non-empty string the parser cannot handle is kept unchanged
as the raw string for display, not degraded to absent; the parse attempt
is wrapped in an exception handler, so the listing itself never fails on
such a field. -/
theorem C8_unparseable_timestamp_kept (parser : PyStr → Option Int) (s : PyStr)
    (h : parser s = none) :
    safe_parse_date parser (PyDate.raw s)
      = if s = [] then PyDate.pnone else PyDate.raw s := by
  by_cases hs : s = [] <;> simp [safe_parse_date, hs, h]

/-- Witness for C8 at a concrete unparseable string and failing parser. -/
theorem C8_unparseable_timestamp_kept_witness :
    safe_parse_date pN (PyDate.raw "oops".toList)
      = if "oops".toList = ([] : PyStr) then PyDate.pnone else PyDate.raw "oops".toList :=
  C8_unparseable_timestamp_kept pN "oops".toList rfl

/-- Counterexample to C8 as stated: a listing whose single file carries an
unparseable updated string produces an entry whose modified field holds
the raw string, not an absent timestamp. -/
theorem C8_counterexample :
    ((list_items pN backendW8 browser0 "b".toList []).items.map (fun x => x.modified))
      = [PyDate.raw "not a date".toList] := by decide

/-! ## C10 -/

/-- C10: progress_percent is total and never divides by zero: when
total_size is 0 it returns 0.0, otherwise downloaded_size / total_size
times 100. -/
theorem C10_progress_percent_total (j : DownloadJob) :
    (j.total_size = 0 → progress_percent j = 0) ∧
    (j.total_size ≠ 0 →
      progress_percent j = ((j.downloaded_size : ℚ) / (j.total_size : ℚ)) * 100) := by
  constructor <;> intro h <;> simp [progress_percent, h]

/-- Witness for C10 at two concrete jobs: an unknown total yields 0, a
half-done ten-byte job yields 50. -/
theorem C10_progress_percent_total_witness :
    progress_percent { source_path := [], destination := [], total_size := 0,
                       downloaded_size := 7, status := [], error_msg := none } = 0 ∧
    progress_percent { source_path := [], destination := [], total_size := 10,
                       downloaded_size := 5, status := [], error_msg := none } = 50 := by
  constructor
  · exact (C10_progress_percent_total _).1 rfl
  · have h := (C10_progress_percent_total
      { source_path := [], destination := [], total_size := 10,
        downloaded_size := 5, status := [], error_msg := none }).2 (by decide)
    rw [h]
    norm_num
